import Mathlib

set_option autoImplicit false

/-!
Verification of the GDPR / feedback / operational-checker backend.

Shallow embedding of:
* `app/gdpr_compliance.py` — `GDPRDataManager.delete_user_data`,
  `_delete_user_files`, `_delete_user_records`, `_delete_user_profile`,
  and the `/gdpr/data-summary` handler `get_user_data_summary`;
* `app/minimal_feedback.py` — the `POST /feedback-minimal` handler;
* `scripts/deployment/deployment_validation.py` — `DeploymentValidator`;
* `scripts/pre_production_checklist.py` — `ProductionReadinessChecker`.

External collaborators (psycopg2 connections and cursors, the storage
adapter, HTTP requests) are modelled as environments of outcomes: each
fallible call is a field returning `Except String α` (`.error` = the call
raised an exception with that message).  Wall-clock timestamps that the
Python code stores (`time.time()`) are omitted from the records, as no
property depends on them.
-/

namespace AiAgent

/-- Substring test on character lists: `containsSub n h` is true when `n`
occurs contiguously inside `h`.  Embeds the Python membership test of a
needle string inside a haystack string. -/
def containsSub (needle : List Char) : List Char → Bool
  | [] => needle.isEmpty
  | c :: rest => needle.isPrefixOf (c :: rest) || containsSub needle rest

/-- The membership test `user_id in filename` used by
`_delete_user_files` (gdpr_compliance.py line 401). -/
def delete_file_match (user_id filename : String) : Bool :=
  containsSub user_id.data filename.data

/-- The membership test of the user id against each listed filename used
by the data-summary file counting (gdpr_compliance.py line 638). -/
def summary_file_match (user_id filename : String) : Bool :=
  containsSub user_id.data filename.data

/-- Storage adapter interface (`core.s3_storage_adapter.storage_adapter`):
`list_files segment` yields the filenames in a segment, `delete_file`
reports whether a deletion succeeded; `.error` models a raised exception. -/
structure StorageAdapter where
  list_files : String → Except String (List String)
  delete_file : String → String → Except String Bool

/-- Storage segments swept by `_delete_user_files` (line 391). -/
def segments : List String := ["uploads", "scripts", "storyboards", "ratings"]

/-- Inner loop of `_delete_user_files` over the file list of one segment.
A `delete_file` exception aborts the rest of the segment (it is caught by
the per-segment `except`), keeping what was already deleted (`acc`). -/
def deleteSegmentFiles (sa : StorageAdapter) (user_id segment : String) :
    List String → List String → List String
  | acc, [] => acc
  | acc, fn :: rest =>
    if delete_file_match user_id fn then
      match sa.delete_file segment fn with
      | .ok true => deleteSegmentFiles sa user_id segment (acc ++ [segment ++ "/" ++ fn]) rest
      | .ok false => deleteSegmentFiles sa user_id segment acc rest
      | .error _ => acc
    else deleteSegmentFiles sa user_id segment acc rest

/-- Models `GDPRDataManager._delete_user_files` (lines 387-410): sweep each
segment; a `list_files` exception for a segment is caught and that
segment is skipped. -/
def delete_user_files (sa : StorageAdapter) (user_id : String) : List String :=
  segments.foldl (fun deleted segment =>
    match sa.list_files segment with
    | .error _ => deleted
    | .ok files => deleteSegmentFiles sa user_id segment deleted files) []

/-- Database environment for the deletion path.  `postgres` is whether
whether the string postgresql occurs in the DATABASE_URL environment
value; `connect` is the outcome
of `psycopg2.connect`; `rowcount t_c` is the rowcount of executing
`DELETE FROM t WHERE c = %s` for the user at hand; `userRowcount` is the
rowcount of `DELETE FROM "user" WHERE user_id = %s`. -/
structure DB where
  postgres : Bool
  connect : Except String Unit
  rowcount : String × String → Except String Nat
  userRowcount : Except String Nat

/-- Allow-listed tables of `_delete_user_records` (line 421). -/
def allowed_tables : List String :=
  ["content", "feedback", "scripts", "analytics", "audit_logs", "system_logs"]

/-- Allow-listed owning columns of `_delete_user_records` (line 422). -/
def allowed_columns : List String := ["user_id", "uploader_id"]

/-- Models `GDPRDataManager._delete_user_records` (lines 412-442).  Returns the
outcome (`.ok` deleted count / `.error` exception message) together with
the list of SQL statements passed to `cur.execute` — the statement
executor — during the call.  When the configuration is not postgres the
whole guarded block is skipped and `0` is returned; validation against
the allow-list happens after `connect` and before any `execute`. -/
def delete_user_records (db : DB) (table user_column user_id : String) :
    Except String Nat × List String :=
  if db.postgres then
    match db.connect with
    | .error e => (.error e, [])
    | .ok _ =>
      if table ∈ allowed_tables ∧ user_column ∈ allowed_columns then
        let query := "DELETE FROM " ++ table ++ " WHERE " ++ user_column ++ " = %s"
        match db.rowcount (table, user_column) with
        | .ok n => (.ok n, [query])
        | .error e => (.error e, [query])
      else (.error ("Invalid table or column: " ++ table ++ "." ++ user_column), [])
  else (.ok 0, [])

/-- Models `GDPRDataManager._delete_user_profile` (lines 444-465): deletes the
`"user"` row, returning whether a row was deleted; non-postgres
configurations skip the block and return `False`. -/
def delete_user_profile (db : DB) (user_id : String) :
    Except String Bool × List String :=
  if db.postgres then
    match db.connect with
    | .error e => (.error e, [])
    | .ok _ =>
      let query := "DELETE FROM \x22user\x22 WHERE user_id = %s"
      match db.userRowcount with
      | .ok n => (.ok (0 < n), [query])
      | .error e => (.error e, [query])
  else (.ok false, [])

/-- The `database_tables` list of `delete_user_data` (lines 163-170),
in source order. -/
def database_tables : List (String × String) :=
  [("feedback", "user_id"), ("scripts", "user_id"), ("content", "uploader_id"),
   ("analytics", "user_id"), ("audit_logs", "user_id"), ("system_logs", "user_id")]

/-- Mutable result record built by `delete_user_data` (lines 142-151);
the wall-clock `deletion_timestamp` and the `request_id` / `reason`
echo fields are omitted. -/
structure DeletionResults where
  user_id : String
  deleted_data_types : List String
  failed_deletions : List String
  files_deleted : List String
  status : String
deriving DecidableEq

/-- Initial `deletion_results` dictionary (lines 142-151). -/
def initResults (user_id : String) : DeletionResults :=
  { user_id := user_id, deleted_data_types := [], failed_deletions := [],
    files_deleted := [], status := "in_progress" }

/-- One attempted step of the deletion sweep: the file-storage sweep,
one per-table delete, or the final user-profile delete. -/
inductive StepKind where
  | files : StepKind
  | table (t c : String) : StepKind
  | profile : StepKind
deriving DecidableEq

/-- Per-call outcomes of the three helper calls that `delete_user_data`
wraps in `try`/`except` (lines 154-189). -/
structure StepEnv where
  filesOutcome : Except String (List String)
  tableOutcome : String → String → Except String Nat
  profileOutcome : Except String Bool

/-- The step environment realised by the helpers above: this is how
`delete_user_data` actually invokes `_delete_user_files`,
`_delete_user_records` and `_delete_user_profile`.  In the embedding
`_delete_user_files` cannot raise (all its fallible calls are caught
inside it), so its outcome is always `.ok`. -/
def stepEnvOf (sa : StorageAdapter) (db : DB) (user_id : String) : StepEnv :=
  { filesOutcome := .ok (delete_user_files sa user_id)
    tableOutcome := fun t c => (delete_user_records db t c user_id).1
    profileOutcome := (delete_user_profile db user_id).1 }

/-- The sequence of steps `delete_user_data` attempts, in source order
(lines 153-189): files first, then each `database_tables` entry, then
the user profile last. -/
def deletionSteps : List StepKind :=
  StepKind.files :: (database_tables.map fun tc => StepKind.table tc.1 tc.2)
    ++ [StepKind.profile]

/-- One `try`/`except` block of `delete_user_data`: attempt step `k`
(appending it to the attempt trace), record its outcome in the result
record exactly as lines 154-189 do. -/
def runDeletionStep (env : StepEnv) (s : DeletionResults × List StepKind)
    (k : StepKind) : DeletionResults × List StepKind :=
  let r := s.1
  let tr := s.2 ++ [k]
  match k with
  | .files =>
    match env.filesOutcome with
    | .ok fs =>
      ({ r with files_deleted := fs,
                deleted_data_types := r.deleted_data_types ++ ["files"] }, tr)
    | .error e =>
      ({ r with failed_deletions := r.failed_deletions ++ ["files: " ++ e] }, tr)
  | .table t _c =>
    match env.tableOutcome t _c with
    | .ok n =>
      (if 0 < n then { r with deleted_data_types := r.deleted_data_types ++ [t] }
       else r, tr)
    | .error e =>
      ({ r with failed_deletions := r.failed_deletions ++ [t ++ ": " ++ e] }, tr)
  | .profile =>
    match env.profileOutcome with
    | .ok b =>
      (if b then
        { r with deleted_data_types := r.deleted_data_types ++ ["user_profile"] }
       else r, tr)
    | .error e =>
      ({ r with failed_deletions :=
          r.failed_deletions ++ ["user_profile: " ++ e] }, tr)

/-- Final status computation of `delete_user_data` (lines 191-197). -/
def finalizeStatus (r : DeletionResults) : DeletionResults :=
  { r with status :=
      if r.failed_deletions.length = 0 then "completed"
      else if 0 < r.deleted_data_types.length then "partially_completed"
      else "failed" }

/-- Models `GDPRDataManager.delete_user_data` (lines 139-199), instrumented with
the trace of attempted steps. -/
def delete_user_data (env : StepEnv) (user_id : String) :
    DeletionResults × List StepKind :=
  let s := deletionSteps.foldl (runDeletionStep env) (initResults user_id, [])
  (finalizeStatus s.1, s.2)

/-- C2 counterexample input: a storage adapter whose every segment lists
no files, and a postgres database in which every allow-listed table and
the user table hold no rows for the user — i.e. a user whose data is
already fully deleted. -/
def saEmpty : StorageAdapter :=
  { list_files := fun _ => .ok [], delete_file := fun _ _ => .ok true }

/-- Postgres database with no remaining rows for the user (all delete
rowcounts are 0). -/
def dbEmpty : DB :=
  { postgres := true, connect := .ok (), rowcount := fun _ => .ok 0,
    userRowcount := .ok 0 }

/-- Non-postgres configuration used as the C7 witness input. -/
def dbSqlite : DB :=
  { postgres := false, connect := .error "not attempted",
    rowcount := fun _ => .error "not attempted", userRowcount := .error "not attempted" }

/-- A value stored under a table or segment key in the summary
dictionary: a row/file count, or the `"unknown"` sentinel written when
the corresponding query or listing raised. -/
inductive Entry where
  | count (n : ℕ) : Entry
  | unknown : Entry
deriving DecidableEq

/-- Database environment for the `/gdpr/data-summary` handler: `connect`
and `countOutcome` are keyed by the (table, column) pair being counted,
since the handler opens a fresh connection per table (lines 604-607). -/
structure SummaryDB where
  postgres : Bool
  connect : String × String → Except String Unit
  countOutcome : String × String → Except String Nat

/-- Allow-listed tables of the data-summary handler (line 610) — note it
lacks `system_logs`, unlike the list in `_delete_user_records`. -/
def summary_allowed_tables : List String :=
  ["content", "feedback", "scripts", "analytics", "audit_logs"]

/-- Models `tables_to_check` of `get_user_data_summary` (lines 594-600). -/
def tables_to_check : List (String × String) :=
  [("content", "uploader_id"), ("feedback", "user_id"), ("scripts", "user_id"),
   ("analytics", "user_id"), ("audit_logs", "user_id")]

/-- Segments whose files the summary counts (line 633) — note it lacks
`ratings`, unlike the list in `_delete_user_files`. -/
def summary_segments : List String := ["uploads", "scripts", "storyboards"]

/-- One iteration of the per-table loop of `get_user_data_summary`
(lines 602-629): returns the entry recorded for the table (`none` when
the non-postgres guard skips the body and no key is written) and the
statements passed to `cur.execute`.  A connect failure, an allow-list
rejection (`ValueError`) or a count failure are all caught by the
per-table `except`, which writes the `"unknown"` sentinel. -/
def summarize_table (sdb : SummaryDB) (table user_column user_id : String) :
    Option Entry × List String :=
  if sdb.postgres then
    match sdb.connect (table, user_column) with
    | .error _ => (some .unknown, [])
    | .ok _ =>
      if table ∈ summary_allowed_tables ∧ user_column ∈ allowed_columns then
        let query := "SELECT COUNT(*) FROM " ++ table ++ " WHERE " ++
          user_column ++ " = %s"
        match sdb.countOutcome (table, user_column) with
        | .ok n => (some (.count n), [query])
        | .error _ => (some .unknown, [query])
      else (some .unknown, [])
  else (none, [])

/-- Accumulation of the outcome of one table into `(data_summary entries,
total_data_points)`, as lines 621-629 do. -/
def summaryTableStep (sdb : SummaryDB) (user_id : String)
    (acc : List (String × Entry) × ℕ) (tc : String × String) :
    List (String × Entry) × ℕ :=
  match (summarize_table sdb tc.1 tc.2 user_id).1 with
  | some (.count n) => (acc.1 ++ [(tc.1, Entry.count n)], acc.2 + n)
  | some .unknown => (acc.1 ++ [(tc.1, Entry.unknown)], acc.2)
  | none => acc

/-- Per-segment file counting of the summary (lines 635-642): the number
of listed files whose name contains the user id, or `"unknown"` when the
listing raised. -/
def count_user_files (sa : StorageAdapter) (user_id segment : String) : Entry :=
  match sa.list_files segment with
  | .ok files => .count (files.filter (fun fn => summary_file_match user_id fn)).length
  | .error _ => .unknown

/-- The summary value assembled by the handler; the nested `files` dict
is the `file_counts` field. -/
structure DataSummary where
  user_id : String
  data_summary : List (String × Entry)
  file_counts : List (String × Entry)
  total_data_points : ℕ
deriving DecidableEq

/-- The `/gdpr/data-summary` handler `get_user_data_summary`
(lines 577-653), minus HTTP plumbing. -/
def get_user_data_summary (sdb : SummaryDB) (sa : StorageAdapter)
    (user_id : String) : DataSummary :=
  let tableAcc := tables_to_check.foldl (summaryTableStep sdb user_id) ([], 0)
  let fileEntries := summary_segments.map fun seg =>
    (seg, count_user_files sa user_id seg)
  { user_id := user_id, data_summary := tableAcc.1, file_counts := fileEntries,
    total_data_points := tableAcc.2 }

/-- Summary database used by the C4 and C8 witnesses: the feedback
connect and the analytics count raise, everything else succeeds. -/
def sdbMixed : SummaryDB :=
  { postgres := true
    connect := fun tc => if tc.1 = "feedback" then .error "connection refused" else .ok ()
    countOutcome := fun tc =>
      if tc.1 = "analytics" then .error "relation missing" else .ok 2 }

/-- The entry the per-table summary loop records for an allow-listed
pair: the count on success, `"unknown"` when the connect or the count
query raised. -/
def tableEntryOf (sdb : SummaryDB) (tc : String × String) : Entry :=
  match sdb.connect tc with
  | .error _ => .unknown
  | .ok _ =>
    match sdb.countOutcome tc with
    | .ok n => .count n
    | .error _ => .unknown

/-- Storage adapter used by the C8 witness: the `scripts` listing raises,
the other segments list one matching and one non-matching file. -/
def saMixed : StorageAdapter :=
  { list_files := fun seg =>
      if seg = "scripts" then .error "timeout"
      else .ok ["user42_a.mp4", "other.mp4"]
    delete_file := fun _ _ => .ok true }

/-- Models `reward = (f.rating - 3) / 2.0` (minimal_feedback.py line 29),
as an exact rational. -/
def reward_of (rating : ℤ) : ℚ := ((rating : ℚ) - 3) / 2

/-- The event-type label (line 30): like when the rating is at least 4,
else view. -/
def event_type_of (rating : ℤ) : String := if 4 ≤ rating then "like" else "view"

/-- The row tuple passed to the feedback INSERT (lines 32-35); the
wall-clock `timestamp` column is omitted. -/
structure FeedbackRow where
  content_id : String
  user_id : String
  event_type : String
  rating : ℤ
  comment : String
  reward : ℚ
deriving DecidableEq

/-- Outcomes of the two fallible database calls of the endpoint:
`psycopg2.connect` and the INSERT…RETURNING execution (which yields the
generated feedback id). -/
structure FeedbackDB where
  connect : Except String Unit
  insertOutcome : Except String ℕ

/-- Response of the endpoint: the success body, or a raised
`HTTPException` with its status code and detail string. -/
inductive FbResponse where
  | success (feedback_id : ℕ) (rating : ℤ) : FbResponse
  | httpError (status : ℕ) (detail : String) : FbResponse
deriving DecidableEq

/-- The `POST /feedback-minimal` handler (minimal_feedback.py lines
17-50).  Second component: the row passed to the INSERT executor, `none`
when the INSERT is never executed.  The out-of-range branch raises
`HTTPException(400, "Rating must be 1-5")` INSIDE the `try`; since
`HTTPException` subclasses `Exception`, the blanket
`except Exception as e: raise HTTPException(status_code=500, detail=str(e))`
catches it and re-raises it with status 500 and detail `str(e)`
(starlette formats this as `"400: Rating must be 1-5"`). -/
def feedback_minimal (fdb : FeedbackDB) (content_id : String) (rating : ℤ)
    (comment : String) : FbResponse × Option FeedbackRow :=
  if 1 ≤ rating ∧ rating ≤ 5 then
    match fdb.connect with
    | .error e => (.httpError 500 e, none)
    | .ok _ =>
      let row : FeedbackRow :=
        { content_id := content_id, user_id := "anonymous",
          event_type := event_type_of rating, rating := rating,
          comment := comment, reward := reward_of rating }
      match fdb.insertOutcome with
      | .ok fid => (.success fid rating, some row)
      | .error e => (.httpError 500 e, some row)
  else (.httpError 500 "400: Rating must be 1-5", none)

/-- A feedback database where connect and insert both succeed. -/
def fdbOk : FeedbackDB := { connect := .ok (), insertOutcome := .ok 7 }

/-- The row produced by the C10 witness input. -/
def rowFive : FeedbackRow :=
  { content_id := "c1", user_id := "anonymous", event_type := "like",
    rating := 5, comment := "", reward := 1 }

/-- Models `round(x, 2)` applied to the millisecond latency
(deployment_validation.py line 34).  Python rounds half-to-even while
`round` here rounds half-up; no probe in this development hits a half. -/
def roundTo2 (q : ℚ) : ℚ := (round (q * 100) : ℚ) / 100

/-- One entry of `validation_results` (lines 29-36); the wall-clock
`timestamp` field is omitted. -/
structure VRecord where
  test_name : String
  status : String
  passed : Bool
  details : String
  response_time_ms : ℚ
deriving DecidableEq

/-- Models `DeploymentValidator` mutable state: the ordered result list and the
`deployment_healthy` flag, which only `add_validation_result` mutates. -/
structure VState where
  validation_results : List VRecord
  deployment_healthy : Bool
deriving DecidableEq

/-- Models `DeploymentValidator.__init__` state (lines 24-25). -/
def initVState : VState := { validation_results := [], deployment_healthy := true }

/-- Models `DeploymentValidator.add_validation_result` (lines 27-43): append one
record; a failing probe clears `deployment_healthy`. -/
def add_validation_result (s : VState) (test_name : String) (status : Bool)
    (details : String) (response_time : ℚ) : VState :=
  { validation_results := s.validation_results ++
      [{ test_name := test_name, status := if status then "PASS" else "FAIL",
         passed := status, details := details,
         response_time_ms := roundTo2 (response_time * 1000) }],
    deployment_healthy := s.deployment_healthy && status }

/-- Outcome of one HTTP request: status code and elapsed seconds. -/
structure HttpResult where
  status_code : ℕ
  elapsed : ℚ
deriving DecidableEq

/-- Environment of HTTP outcomes for one validator run.  `get` is
`requests.get` keyed by endpoint path; `postLogin` is the
`POST /users/login` with the demo credentials; `healthUpWithinTimeout`
is whether the readiness polling loop sees a 200 before its timeout;
`demoHasCreds` is whether the demo-login JSON contains both `username`
and `password` keys.  The free-text numbers interpolated into the Python
detail strings (elapsed seconds, item counts) enter through the
remaining fields; JSON-decoding failures are not modelled. -/
structure DeployEnv where
  get : String → Except String HttpResult
  postLogin : Except String HttpResult
  healthUpWithinTimeout : Bool
  waitElapsed : ℚ
  demoHasCreds : Bool
  demoUsername : String
  tokenType : String
  contentsCount : ℕ

/-- Models `wait_for_deployment` (lines 45-74): the polling loop reduces to
whether a 200 arrives before the timeout; either way exactly one
`Deployment Ready` record is added, and the boolean returned gates the
rest of the run. -/
def wait_for_deployment (env : DeployEnv) (s : VState) : Bool × VState :=
  if env.healthUpWithinTimeout then
    (true, add_validation_result s "Deployment Ready" true
      "Service responding" env.waitElapsed)
  else
    (false, add_validation_result s "Deployment Ready" false
      "Service not responding after timeout" 0)

/-- Models `core_endpoints` (lines 80-86). -/
def core_endpoints : List (String × String) :=
  [("/health", "Health Check"), ("/health/detailed", "Detailed Health"),
   ("/docs", "API Documentation"), ("/openapi.json", "OpenAPI Schema"),
   ("/metrics", "Metrics Info")]

/-- One probe of `validate_core_endpoints` (lines 88-110). -/
def probeGet (env : DeployEnv) (s : VState) (endpoint description : String) :
    VState :=
  match env.get endpoint with
  | .ok r =>
    if r.status_code = 200 then
      add_validation_result s description true
        ("Status: " ++ toString r.status_code) r.elapsed
    else
      add_validation_result s description false
        ("Status: " ++ toString r.status_code) r.elapsed
  | .error e => add_validation_result s description false e 0

/-- Models `validate_core_endpoints` (lines 76-110). -/
def validate_core_endpoints (env : DeployEnv) (s : VState) : VState :=
  core_endpoints.foldl (fun s ed => probeGet env s ed.1 ed.2) s

/-- Models `validate_authentication_flow` (lines 112-174).  The `Demo Login
Flow` probe is attempted only when the `Demo Login Available` probe got
a 200 and the demo JSON carried credentials; a request exception is
recorded under `Authentication System`. -/
def validate_authentication_flow (env : DeployEnv) (s : VState) : VState :=
  match env.get "/demo-login" with
  | .error e => add_validation_result s "Authentication System" false e 0
  | .ok r =>
    if r.status_code = 200 then
      let s1 := add_validation_result s "Demo Login Available" true
        ("Username: " ++ env.demoUsername) r.elapsed
      if env.demoHasCreds then
        match env.postLogin with
        | .error e => add_validation_result s1 "Demo Login Flow" false e 0
        | .ok lr =>
          if lr.status_code = 200 then
            add_validation_result s1 "Demo Login Flow" true
              ("Token received: " ++ env.tokenType) lr.elapsed
          else
            add_validation_result s1 "Demo Login Flow" false
              ("Login failed: " ++ toString lr.status_code) lr.elapsed
      else s1
    else
      add_validation_result s "Demo Login Available" false
        ("Status: " ++ toString r.status_code) r.elapsed

/-- Models `validate_upload_system` (lines 176-223).  Both requests live in one
`try`: an exception on the first skips the `Content Listing` probe. -/
def validate_upload_system (env : DeployEnv) (s : VState) : VState :=
  match env.get "/cdn/upload-url" with
  | .error e => add_validation_result s "Upload System" false e 0
  | .ok r =>
    let s1 :=
      if r.status_code = 200 then
        add_validation_result s "CDN Upload URL Generation" true
          "Upload URL endpoint accessible" r.elapsed
      else
        add_validation_result s "CDN Upload URL Generation" false
          ("Status: " ++ toString r.status_code) r.elapsed
    match env.get "/contents" with
    | .error e => add_validation_result s1 "Upload System" false e 0
    | .ok r2 =>
      if r2.status_code = 200 then
        add_validation_result s1 "Content Listing" true
          ("Found " ++ toString env.contentsCount ++ " items") r2.elapsed
      else
        add_validation_result s1 "Content Listing" false
          ("Status: " ++ toString r2.status_code) r2.elapsed

/-- Models `monitoring_endpoints` (lines 229-233). -/
def monitoring_endpoints : List (String × String) :=
  [("/metrics/performance", "Performance Metrics"),
   ("/observability/health", "Observability Health"),
   ("/monitoring-status", "Monitoring Status")]

/-- One probe of `validate_monitoring_system` (lines 235-257). -/
def probeMonitoring (env : DeployEnv) (s : VState)
    (endpoint description : String) : VState :=
  match env.get endpoint with
  | .ok r =>
    if r.status_code = 200 then
      add_validation_result s description true
        "Monitoring endpoint accessible" r.elapsed
    else
      add_validation_result s description false
        ("Status: " ++ toString r.status_code) r.elapsed
  | .error e => add_validation_result s description false e 0

/-- Models `validate_monitoring_system` (lines 225-257). -/
def validate_monitoring_system (env : DeployEnv) (s : VState) : VState :=
  monitoring_endpoints.foldl (fun s ed => probeMonitoring env s ed.1 ed.2) s

/-- Models `validate_gdpr_compliance` (lines 259-285). -/
def validate_gdpr_compliance (env : DeployEnv) (s : VState) : VState :=
  match env.get "/gdpr/privacy-policy" with
  | .ok r =>
    if r.status_code = 200 then
      add_validation_result s "GDPR Privacy Policy" true
        "Privacy policy accessible" r.elapsed
    else
      add_validation_result s "GDPR Privacy Policy" false
        ("Status: " ++ toString r.status_code) r.elapsed
  | .error e => add_validation_result s "GDPR Compliance" false e 0

/-- Models `performance_tests` (lines 292-296): endpoint, description, and
response-time target in seconds. -/
def performance_tests : List (String × String × ℚ) :=
  [("/health", "Health Check", 2), ("/metrics", "Metrics", 3),
   ("/contents", "Content List", 5)]

/-- One probe of `validate_performance_benchmarks` (lines 298-327);
the detail strings interpolate measured times, simplified here. -/
def probePerformance (env : DeployEnv) (s : VState)
    (endpoint description : String) (max_time : ℚ) : VState :=
  match env.get endpoint with
  | .ok r =>
    if r.status_code = 200 ∧ r.elapsed ≤ max_time then
      add_validation_result s (description ++ " Performance") true
        "Response time within target" r.elapsed
    else if r.status_code = 200 then
      add_validation_result s (description ++ " Performance") false
        "Too slow" r.elapsed
    else
      add_validation_result s (description ++ " Performance") false
        ("Status: " ++ toString r.status_code) r.elapsed
  | .error e => add_validation_result s (description ++ " Performance") false e 0

/-- Models `validate_performance_benchmarks` (lines 287-327). -/
def validate_performance_benchmarks (env : DeployEnv) (s : VState) : VState :=
  performance_tests.foldl (fun s pt => probePerformance env s pt.1 pt.2.1 pt.2.2) s

/-- Models `run_full_validation` (lines 329-346): when the readiness wait fails
it returns `False` immediately — none of the other probe groups run. -/
def run_full_validation (env : DeployEnv) : Bool × VState :=
  let ws := wait_for_deployment env initVState
  if ws.1 then
    let s1 := validate_core_endpoints env ws.2
    let s2 := validate_authentication_flow env s1
    let s3 := validate_upload_system env s2
    let s4 := validate_monitoring_system env s3
    let s5 := validate_gdpr_compliance env s4
    let s6 := validate_performance_benchmarks env s5
    (s6.deployment_healthy, s6)
  else (false, ws.2)

/-- One entry of `ProductionReadinessChecker.checks`
(pre_production_checklist.py lines 29-35). -/
structure CRecord where
  category : String
  check_name : String
  status : String
  passed : Bool
  details : String
deriving DecidableEq

/-- Models `ProductionReadinessChecker` mutable state; `overall_status` is only
mutated by `add_check_result`. -/
structure CState where
  checks : List CRecord
  overall_status : Bool
deriving DecidableEq

/-- Models `ProductionReadinessChecker.__init__` state (lines 24-25). -/
def initCState : CState := { checks := [], overall_status := true }

/-- Models `ProductionReadinessChecker.add_check_result` (lines 27-40). -/
def add_check_result (s : CState) (category check_name : String)
    (status : Bool) (details : String) : CState :=
  { checks := s.checks ++
      [{ category := category, check_name := check_name,
         status := if status then "PASS" else "FAIL",
         passed := status, details := details }],
    overall_status := s.overall_status && status }

/-- Any checker run is a sequence of `add_check_result` calls from the
initial state — `run_all_checks` mutates state only through them. -/
def runChecks (l : List (String × String × Bool × String)) : CState :=
  l.foldl (fun s x => add_check_result s x.1 x.2.1 x.2.2.1 x.2.2.2) initCState

/-- The "all healthy = AND of recorded probes" invariant. -/
def VInv (s : VState) : Prop :=
  s.deployment_healthy = s.validation_results.all fun r => r.passed

/-- Environment in which the deployment never comes up: every request
raises and the readiness poll times out. -/
def envDown : DeployEnv :=
  { get := fun _ => .error "connection refused"
    postLogin := .error "connection refused"
    healthUpWithinTimeout := false, waitElapsed := 0, demoHasCreds := false
    demoUsername := "", tokenType := "", contentsCount := 0 }

/-- Environment in which every request returns 200 in one second. -/
def envUp : DeployEnv :=
  { get := fun _ => .ok { status_code := 200, elapsed := 1 }
    postLogin := .ok { status_code := 200, elapsed := 1 }
    healthUpWithinTimeout := true, waitElapsed := 2, demoHasCreds := true
    demoUsername := "demo", tokenType := "bearer", contentsCount := 3 }

lemma runDeletionStep_snd (env : StepEnv) (s : DeletionResults × List StepKind)
    (k : StepKind) : (runDeletionStep env s k).2 = s.2 ++ [k] := by
  cases k with
  | files => cases h : env.filesOutcome <;> simp [runDeletionStep, h]
  | table t c => cases h : env.tableOutcome t c <;> simp [runDeletionStep, h]
  | profile => cases h : env.profileOutcome <;> simp [runDeletionStep, h]

lemma foldl_runDeletionStep_snd (env : StepEnv) :
    ∀ (l : List StepKind) (s : DeletionResults × List StepKind),
      (l.foldl (runDeletionStep env) s).2 = s.2 ++ l := by
  intro l
  induction l with
  | nil => intro s; simp
  | cons k ks ih =>
    intro s
    simp only [List.foldl_cons]
    rw [ih, runDeletionStep_snd]
    simp

/-- The attempt trace of `delete_user_data` is always exactly
`deletionSteps`, whatever the per-step outcomes. -/
lemma delete_user_data_trace (env : StepEnv) (user_id : String) :
    (delete_user_data env user_id).2 = deletionSteps := by
  simp [delete_user_data, foldl_runDeletionStep_snd]

lemma finalize_iffs (r : DeletionResults) :
    ((finalizeStatus r).status = "completed" ↔ r.failed_deletions = []) ∧
    ((finalizeStatus r).status = "partially_completed" ↔
       (r.failed_deletions ≠ [] ∧ r.deleted_data_types ≠ [])) ∧
    ((finalizeStatus r).status = "failed" ↔
       (r.failed_deletions ≠ [] ∧ r.deleted_data_types = [])) ∧
    ((finalizeStatus r).status = "completed" ∨
     (finalizeStatus r).status = "partially_completed" ∨
     (finalizeStatus r).status = "failed") := by
  by_cases h1 : r.failed_deletions.length = 0 <;>
    by_cases h2 : 0 < r.deleted_data_types.length <;>
      simp_all +decide [finalizeStatus, List.length_eq_zero, List.length_pos]

/-- C1: the final status of `delete_user_data` is `"completed"` exactly
when the failure list is empty, `"partially_completed"` exactly when the
failure list is non-empty and some data kind was recorded as deleted,
`"failed"` exactly when the failure list is non-empty and nothing was
recorded as deleted; and these three are the only possible statuses —
for every user id and every environment of per-step outcomes. -/
theorem c1_deletion_status_three_valued (env : StepEnv) (user_id : String) :
    ((delete_user_data env user_id).1.status = "completed" ↔
       (delete_user_data env user_id).1.failed_deletions = []) ∧
    ((delete_user_data env user_id).1.status = "partially_completed" ↔
       ((delete_user_data env user_id).1.failed_deletions ≠ [] ∧
        (delete_user_data env user_id).1.deleted_data_types ≠ [])) ∧
    ((delete_user_data env user_id).1.status = "failed" ↔
       ((delete_user_data env user_id).1.failed_deletions ≠ [] ∧
        (delete_user_data env user_id).1.deleted_data_types = [])) ∧
    ((delete_user_data env user_id).1.status = "completed" ∨
     (delete_user_data env user_id).1.status = "partially_completed" ∨
     (delete_user_data env user_id).1.status = "failed") := by
  have h := finalize_iffs
    ((deletionSteps.foldl (runDeletionStep env) (initResults user_id, [])).1)
  have hfail : (finalizeStatus
      ((deletionSteps.foldl (runDeletionStep env) (initResults user_id, [])).1)).failed_deletions =
      ((deletionSteps.foldl (runDeletionStep env) (initResults user_id, [])).1).failed_deletions := rfl
  have hdel : (finalizeStatus
      ((deletionSteps.foldl (runDeletionStep env) (initResults user_id, [])).1)).deleted_data_types =
      ((deletionSteps.foldl (runDeletionStep env) (initResults user_id, [])).1).deleted_data_types := rfl
  simp only [delete_user_data]
  rw [hfail, hdel] at *
  exact h

/-- C5: in every execution of `delete_user_data` — every user id and
every pattern of per-step outcomes — the user-profile delete is attempted
last: the attempt trace is some prefix followed by the profile step, and
that prefix contains the file-storage sweep and every per-table delete of
`database_tables`, but no profile step. -/
theorem c5_user_profile_attempted_last (env : StepEnv) (user_id : String) :
    ∃ pre, (delete_user_data env user_id).2 = pre ++ [StepKind.profile] ∧
      StepKind.profile ∉ pre ∧ StepKind.files ∈ pre ∧
      ∀ tc ∈ database_tables, StepKind.table tc.1 tc.2 ∈ pre := by
  refine ⟨StepKind.files ::
      (database_tables.map fun tc => StepKind.table tc.1 tc.2), ?_, ?_, ?_, ?_⟩
  · rw [delete_user_data_trace]
    simp [deletionSteps]
  · decide
  · decide
  · decide

/-- C5 witness: in a concrete run the last attempted step is the
user-profile delete. -/
theorem c5_user_profile_attempted_last_witness :
    (delete_user_data (stepEnvOf saEmpty dbSqlite "user42") "user42").2.getLast?
      = some StepKind.profile := by
  obtain ⟨pre, hpre, -, -, -⟩ := c5_user_profile_attempted_last
    (stepEnvOf saEmpty dbSqlite "user42") "user42"
  rw [hpre]
  simp

lemma deleteSegmentFiles_of_no_match (sa : StorageAdapter) (user_id segment : String) :
    ∀ (fs acc : List String), (∀ fn ∈ fs, delete_file_match user_id fn = false) →
      deleteSegmentFiles sa user_id segment acc fs = acc := by
  intro fs
  induction fs with
  | nil => intro acc _; rfl
  | cons fn rest ih =>
    intro acc h
    have hfn := h fn (by simp)
    simp only [deleteSegmentFiles, hfn, Bool.false_eq_true, if_false]
    exact ih acc fun x hx => h x (by simp [hx])

lemma foldl_files_const (sa : StorageAdapter) (user_id : String) :
    ∀ (l : List String), (∀ seg ∈ l, ∃ fs, sa.list_files seg = Except.ok fs ∧
        ∀ fn ∈ fs, delete_file_match user_id fn = false) →
      ∀ acc, l.foldl (fun deleted segment =>
        match sa.list_files segment with
        | .error _ => deleted
        | .ok files => deleteSegmentFiles sa user_id segment deleted files) acc = acc := by
  intro l
  induction l with
  | nil => intro _ acc; rfl
  | cons seg rest ih =>
    intro h acc
    obtain ⟨fs, hls, hno⟩ := h seg (by simp)
    simp only [List.foldl_cons, hls]
    rw [deleteSegmentFiles_of_no_match sa user_id seg fs acc hno]
    exact ih (fun s hs => h s (by simp [hs])) acc

/-- When no listed file matches the user id, the storage sweep deletes
nothing. -/
lemma delete_user_files_empty (sa : StorageAdapter) (user_id : String)
    (h : ∀ seg ∈ segments, ∃ fs, sa.list_files seg = Except.ok fs ∧
        ∀ fn ∈ fs, delete_file_match user_id fn = false) :
    delete_user_files sa user_id = [] :=
  foldl_files_const sa user_id segments h []

lemma delete_user_records_fst (db : DB) (t c user_id : String)
    (hpg : db.postgres = true) (hconn : db.connect = .ok ())
    (ht : t ∈ allowed_tables) (hc : c ∈ allowed_columns) (n : ℕ)
    (hrc : db.rowcount (t, c) = .ok n) :
    (delete_user_records db t c user_id).1 = .ok n := by
  simp [delete_user_records, hpg, hconn, ht, hc, hrc]

lemma delete_user_profile_fst (db : DB) (user_id : String)
    (hpg : db.postgres = true) (hconn : db.connect = .ok ())
    (hur : db.userRowcount = .ok 0) :
    (delete_user_profile db user_id).1 = .ok false := by
  simp [delete_user_profile, hpg, hconn, hur]

/-- C2 counterexample: for a user whose data is already fully deleted
(every segment lists no file containing the id, every table delete and
the user delete affect 0 rows), the second `delete_user_data` call does
NOT return `deleted_data_types = []` with `status = "failed"` as claimed:
it returns `deleted_data_types = ["files"]` and `status = "completed"`,
because the (vacuously successful) storage sweep unconditionally appends
`"files"` to the deleted kinds (lines 155-157). -/
theorem c2_counterexample :
    (∀ seg ∈ segments, saEmpty.list_files seg = .ok []) ∧
    (∀ tc ∈ database_tables, dbEmpty.rowcount tc = .ok 0) ∧
    dbEmpty.userRowcount = .ok 0 ∧
    (delete_user_data (stepEnvOf saEmpty dbEmpty "user42") "user42").1.deleted_data_types
      = ["files"] ∧
    (delete_user_data (stepEnvOf saEmpty dbEmpty "user42") "user42").1.status
      = "completed" ∧
    ¬((delete_user_data (stepEnvOf saEmpty dbEmpty "user42") "user42").1.deleted_data_types
        = [] ∧
      (delete_user_data (stepEnvOf saEmpty dbEmpty "user42") "user42").1.status
        = "failed") := by
  refine ⟨fun seg _ => rfl, fun tc _ => rfl, rfl, ?_, ?_, ?_⟩ <;> decide

/-- C2 (amended): `delete` is idempotent in the sense that a second call
for an already-fully-deleted user id raises no exception (the embedded
function is total), but it yields `deleted_data_types = ["files"]` and
`status = "completed"` — the vacuously successful storage sweep is always
recorded as a deleted kind — not `[]` and `"failed"` as claimed. -/
theorem c2_second_delete_completed (sa : StorageAdapter) (db : DB) (user_id : String)
    (hseg : ∀ seg ∈ segments, ∃ fs, sa.list_files seg = Except.ok fs ∧
        ∀ fn ∈ fs, delete_file_match user_id fn = false)
    (hpg : db.postgres = true) (hconn : db.connect = .ok ())
    (hrows : ∀ tc ∈ database_tables, db.rowcount tc = .ok 0)
    (huser : db.userRowcount = .ok 0) :
    (delete_user_data (stepEnvOf sa db user_id) user_id).1.deleted_data_types = ["files"] ∧
    (delete_user_data (stepEnvOf sa db user_id) user_id).1.failed_deletions = [] ∧
    (delete_user_data (stepEnvOf sa db user_id) user_id).1.status = "completed" := by
  have hfiles : (stepEnvOf sa db user_id).filesOutcome = .ok [] := by
    simp [stepEnvOf, delete_user_files_empty sa user_id hseg]
  have htab : ∀ tc ∈ database_tables,
      (stepEnvOf sa db user_id).tableOutcome tc.1 tc.2 = .ok 0 := by
    intro tc htc
    have h1 : tc.1 ∈ allowed_tables := by fin_cases htc <;> decide
    have h2 : tc.2 ∈ allowed_columns := by fin_cases htc <;> decide
    simpa [stepEnvOf] using
      delete_user_records_fst db tc.1 tc.2 user_id hpg hconn h1 h2 0 (hrows tc htc)
  have hprof : (stepEnvOf sa db user_id).profileOutcome = .ok false := by
    simpa [stepEnvOf] using delete_user_profile_fst db user_id hpg hconn huser
  have h1 := htab ("feedback", "user_id") (by decide)
  have h2 := htab ("scripts", "user_id") (by decide)
  have h3 := htab ("content", "uploader_id") (by decide)
  have h4 := htab ("analytics", "user_id") (by decide)
  have h5 := htab ("audit_logs", "user_id") (by decide)
  have h6 := htab ("system_logs", "user_id") (by decide)
  simp at h1 h2 h3 h4 h5 h6
  refine ⟨?_, ?_, ?_⟩ <;>
    simp [delete_user_data, deletionSteps, database_tables, runDeletionStep,
      initResults, finalizeStatus, hfiles, hprof, h1, h2, h3, h4, h5, h6]

/-- C2 witness: the amended statement holds at the concrete
fully-deleted input. -/
theorem c2_second_delete_completed_witness :
    (delete_user_data (stepEnvOf saEmpty dbEmpty "user42") "user42").1.deleted_data_types
      = ["files"] ∧
    (delete_user_data (stepEnvOf saEmpty dbEmpty "user42") "user42").1.failed_deletions
      = [] ∧
    (delete_user_data (stepEnvOf saEmpty dbEmpty "user42") "user42").1.status
      = "completed" :=
  c2_second_delete_completed saEmpty dbEmpty "user42"
    (fun seg _ => ⟨[], rfl, by simp⟩) rfl rfl (fun tc _ => rfl) rfl

/-- C7: when `DATABASE_URL` does not contain `"postgresql"`, every
per-table delete returns 0 and the user-profile delete returns `False`,
both executing no SQL statement and recording no failure; consequently
`delete_user_data` reports `status = "completed"` with `"files"` as the
only deleted data type (the storage sweep cannot raise in the embedding,
matching its per-segment exception handling) even though no database row
was examined. -/
theorem c7_non_postgres_completes_vacuously (sa : StorageAdapter) (db : DB)
    (user_id : String) (hpg : db.postgres = false) :
    (∀ t c, delete_user_records db t c user_id = (.ok 0, [])) ∧
    delete_user_profile db user_id = (.ok false, []) ∧
    (delete_user_data (stepEnvOf sa db user_id) user_id).1.deleted_data_types
      = ["files"] ∧
    (delete_user_data (stepEnvOf sa db user_id) user_id).1.failed_deletions = [] ∧
    (delete_user_data (stepEnvOf sa db user_id) user_id).1.status = "completed" := by
  have hrec : ∀ t c, delete_user_records db t c user_id = (.ok 0, []) := by
    intro t c; simp [delete_user_records, hpg]
  have hprofpair : delete_user_profile db user_id = (.ok false, []) := by
    simp [delete_user_profile, hpg]
  have htab : ∀ t c, (stepEnvOf sa db user_id).tableOutcome t c = .ok 0 := by
    intro t c; simp [stepEnvOf, hrec t c]
  have hprof : (stepEnvOf sa db user_id).profileOutcome = .ok false := by
    simp [stepEnvOf, hprofpair]
  have hfiles : (stepEnvOf sa db user_id).filesOutcome
      = .ok (delete_user_files sa user_id) := rfl
  refine ⟨hrec, hprofpair, ?_, ?_, ?_⟩ <;>
    simp [delete_user_data, deletionSteps, database_tables, runDeletionStep,
      initResults, finalizeStatus, hfiles, hprof, htab]

/-- C7 witness: the theorem at a concrete non-postgres configuration. -/
theorem c7_non_postgres_completes_vacuously_witness :
    dbSqlite.postgres = false ∧
    delete_user_records dbSqlite "feedback" "user_id" "user42" = (.ok 0, []) ∧
    (delete_user_data (stepEnvOf saEmpty dbSqlite "user42") "user42").1.status
      = "completed" ∧
    (delete_user_data (stepEnvOf saEmpty dbSqlite "user42") "user42").1.deleted_data_types
      = ["files"] :=
  have h := c7_non_postgres_completes_vacuously saEmpty dbSqlite "user42" rfl
  ⟨rfl, h.1 "feedback" "user_id", h.2.2.2.2, h.2.2.1⟩

/-- C6 counterexample: the summary does not inspect the same tables and
segments that the deletion sweep covers — `system_logs` is swept by
`delete_user_data` but never counted by the summary, and the `ratings`
segment is swept but never counted, so the two scopes are not equal. -/
theorem c6_counterexample :
    ("system_logs", "user_id") ∈ database_tables ∧
    ("system_logs", "user_id") ∉ tables_to_check ∧
    "ratings" ∈ segments ∧ "ratings" ∉ summary_segments ∧
    ¬tables_to_check.Perm database_tables ∧
    ¬summary_segments.Perm segments := by
  refine ⟨by decide, by decide, by decide, by decide, ?_, ?_⟩ <;> decide

/-- C6 (amended): the summary inspects the (table, owning-column)
allow-list of the deletion sweep minus `system_logs`, and the storage
segments of the deletion sweep minus `ratings`, with the identical
substring-on-filename membership test. -/
theorem c6_summary_scope_vs_delete_scope :
    tables_to_check.Perm
      (database_tables.filter fun tc => tc.1 != "system_logs") ∧
    summary_segments = segments.filter (fun s => s != "ratings") ∧
    summary_file_match = delete_file_match := by
  exact ⟨by decide, by decide, rfl⟩

lemma summary_allowed_sub {t : String} (h : t ∈ summary_allowed_tables) :
    t ∈ allowed_tables := by
  simp only [summary_allowed_tables, List.mem_cons, List.not_mem_nil, or_false] at h
  rcases h with h | h | h | h | h <;> subst h <;> decide

lemma delete_user_records_stmts_empty (db : DB) (t c user_id : String)
    (hall : ¬(t ∈ allowed_tables ∧ c ∈ allowed_columns)) :
    (delete_user_records db t c user_id).2 = [] := by
  by_cases hpg : db.postgres
  · cases h : db.connect <;> simp [delete_user_records, hpg, h, hall]
  · simp [delete_user_records, hpg]

lemma summarize_table_stmts_empty (sdb : SummaryDB) (t c user_id : String)
    (hall : ¬(t ∈ allowed_tables ∧ c ∈ allowed_columns)) :
    (summarize_table sdb t c user_id).2 = [] := by
  have hx : ¬(t ∈ summary_allowed_tables ∧ c ∈ allowed_columns) :=
    fun hy => hall ⟨summary_allowed_sub hy.1, hy.2⟩
  by_cases hpg : sdb.postgres
  · cases h : sdb.connect (t, c) <;> simp [summarize_table, hpg, h, hx]
  · simp [summarize_table, hpg]

/-- C4: a (table, column) pair outside the allow-list (tables `content,
feedback, scripts, analytics, audit_logs, system_logs`; columns
`user_id, uploader_id`) is rejected by both the per-table delete and the
per-table summary count before any SQL statement reaches `cur.execute`
(the executed-statement list is empty), and conversely any pair that does
get interpolated into an executed statement is in the allow-list. -/
theorem c4_allow_list_guards_statements (db : DB) (sdb : SummaryDB)
    (t c user_id : String) :
    (¬(t ∈ allowed_tables ∧ c ∈ allowed_columns) →
      (delete_user_records db t c user_id).2 = [] ∧
      (summarize_table sdb t c user_id).2 = []) ∧
    ((delete_user_records db t c user_id).2 ≠ [] →
      t ∈ allowed_tables ∧ c ∈ allowed_columns) ∧
    ((summarize_table sdb t c user_id).2 ≠ [] →
      t ∈ allowed_tables ∧ c ∈ allowed_columns) := by
  by_cases hall : t ∈ allowed_tables ∧ c ∈ allowed_columns
  · exact ⟨fun h => absurd hall h, fun _ => hall, fun _ => hall⟩
  · refine ⟨fun _ => ⟨delete_user_records_stmts_empty db t c user_id hall,
      summarize_table_stmts_empty sdb t c user_id hall⟩, ?_, ?_⟩
    · intro h; exact absurd (delete_user_records_stmts_empty db t c user_id hall) h
    · intro h; exact absurd (summarize_table_stmts_empty sdb t c user_id hall) h

/-- C4 witness: the out-of-list pair `("user", "password")` is rejected
by both operations with zero executed statements. -/
theorem c4_allow_list_guards_statements_witness :
    ¬("user" ∈ allowed_tables ∧ "password" ∈ allowed_columns) ∧
    (delete_user_records dbEmpty "user" "password" "user42").2 = [] ∧
    (summarize_table sdbMixed "user" "password" "user42").2 = [] :=
  have h := c4_allow_list_guards_statements dbEmpty sdbMixed "user" "password" "user42"
  have hno : ¬("user" ∈ allowed_tables ∧ "password" ∈ allowed_columns) := by decide
  ⟨hno, (h.1 hno).1, (h.1 hno).2⟩

lemma summarize_table_allowed_fst (sdb : SummaryDB) (t c user_id : String)
    (hpg : sdb.postgres = true) (ht : t ∈ summary_allowed_tables)
    (hc : c ∈ allowed_columns) :
    (summarize_table sdb t c user_id).1 = some (tableEntryOf sdb (t, c)) := by
  cases h : sdb.connect (t, c) with
  | error e => simp [summarize_table, tableEntryOf, hpg, ht, hc, h]
  | ok u =>
    cases h2 : sdb.countOutcome (t, c) <;>
      simp [summarize_table, tableEntryOf, hpg, ht, hc, h, h2]

lemma summaryTableStep_allowed (sdb : SummaryDB) (user_id : String)
    (hpg : sdb.postgres = true) (acc : List (String × Entry) × ℕ)
    (tc : String × String) (h1 : tc.1 ∈ summary_allowed_tables)
    (h2 : tc.2 ∈ allowed_columns) :
    (summaryTableStep sdb user_id acc tc).1
      = acc.1 ++ [(tc.1, tableEntryOf sdb tc)] := by
  obtain ⟨t, c⟩ := tc
  have hs := summarize_table_allowed_fst sdb t c user_id hpg h1 h2
  cases he : tableEntryOf sdb (t, c) <;> simp [summaryTableStep, hs, he]

lemma foldl_summaryTableStep_fst (sdb : SummaryDB) (user_id : String)
    (hpg : sdb.postgres = true) :
    ∀ (l : List (String × String)),
      (∀ tc ∈ l, tc.1 ∈ summary_allowed_tables ∧ tc.2 ∈ allowed_columns) →
      ∀ acc, (l.foldl (summaryTableStep sdb user_id) acc).1
        = acc.1 ++ l.map fun tc => (tc.1, tableEntryOf sdb tc) := by
  intro l
  induction l with
  | nil => intro _ acc; simp
  | cons tc rest ih =>
    intro h acc
    obtain ⟨h1, h2⟩ := h tc (by simp)
    simp only [List.foldl_cons, List.map_cons]
    rw [ih (fun x hx => h x (by simp [hx])),
      summaryTableStep_allowed sdb user_id hpg acc tc h1 h2]
    simp

/-- In a postgres configuration the table entries of the summary are exactly
one per checked table, in order, with value `tableEntryOf`. -/
lemma data_summary_eq_map (sdb : SummaryDB) (sa : StorageAdapter)
    (user_id : String) (hpg : sdb.postgres = true) :
    (get_user_data_summary sdb sa user_id).data_summary
      = tables_to_check.map fun tc => (tc.1, tableEntryOf sdb tc) := by
  have h := foldl_summaryTableStep_fst sdb user_id hpg tables_to_check
    (by decide) ([], 0)
  simpa [get_user_data_summary] using h

/-- C8: for every user id and every pattern of per-table failures the
summary never raises: every checked table contributes exactly one entry
(`data_summary` keys are exactly the tables of `tables_to_check`, in order),
a table whose connect or count query fails contributes the `"unknown"`
sentinel, a table whose query succeeds contributes its count, and the
per-segment file counts degrade to `"unknown"` the same way. -/
theorem c8_summary_degrades_to_unknown (sdb : SummaryDB) (sa : StorageAdapter)
    (user_id : String) (hpg : sdb.postgres = true) :
    ((get_user_data_summary sdb sa user_id).data_summary.map Prod.fst
       = tables_to_check.map Prod.fst) ∧
    (∀ tc ∈ tables_to_check, ∀ e, (sdb.connect tc = .error e ∨
        (sdb.connect tc = .ok () ∧ sdb.countOutcome tc = .error e)) →
      (tc.1, Entry.unknown) ∈ (get_user_data_summary sdb sa user_id).data_summary) ∧
    (∀ tc ∈ tables_to_check, ∀ n, sdb.connect tc = .ok () →
      sdb.countOutcome tc = .ok n →
      (tc.1, Entry.count n) ∈ (get_user_data_summary sdb sa user_id).data_summary) ∧
    ((get_user_data_summary sdb sa user_id).file_counts.map Prod.fst
       = summary_segments) ∧
    (∀ seg ∈ summary_segments, ∀ e, sa.list_files seg = .error e →
      (seg, Entry.unknown) ∈ (get_user_data_summary sdb sa user_id).file_counts) ∧
    (∀ seg ∈ summary_segments, ∀ fs, sa.list_files seg = .ok fs →
      (seg, Entry.count (fs.filter fun fn => summary_file_match user_id fn).length)
        ∈ (get_user_data_summary sdb sa user_id).file_counts) := by
  have hmap := data_summary_eq_map sdb sa user_id hpg
  have hfc : (get_user_data_summary sdb sa user_id).file_counts
      = summary_segments.map fun seg => (seg, count_user_files sa user_id seg) := rfl
  refine ⟨?_, ?_, ?_, ?_, ?_, ?_⟩
  · rw [hmap, List.map_map]; rfl
  · intro tc htc e hcase
    have hent : tableEntryOf sdb tc = Entry.unknown := by
      rcases hcase with h | ⟨h1, h2⟩
      · simp [tableEntryOf, h]
      · simp [tableEntryOf, h1, h2]
    rw [hmap]
    exact List.mem_map.mpr ⟨tc, htc, by rw [hent]⟩
  · intro tc htc n h1 h2
    have hent : tableEntryOf sdb tc = Entry.count n := by
      simp [tableEntryOf, h1, h2]
    rw [hmap]
    exact List.mem_map.mpr ⟨tc, htc, by rw [hent]⟩
  · rw [hfc, List.map_map]; rfl
  · intro seg hseg e h
    have hent : count_user_files sa user_id seg = Entry.unknown := by
      simp [count_user_files, h]
    rw [hfc]
    exact List.mem_map.mpr ⟨seg, hseg, by rw [hent]⟩
  · intro seg hseg fs h
    have hent : count_user_files sa user_id seg
        = Entry.count (fs.filter fun fn => summary_file_match user_id fn).length := by
      simp [count_user_files, h]
    rw [hfc]
    exact List.mem_map.mpr ⟨seg, hseg, by rw [hent]⟩

/-- C8 witness: at a concrete environment where the feedback connect and
the analytics count raise, those tables degrade to `"unknown"`, `content`
still reports its count, the failing `scripts` listing degrades to
`"unknown"`, and `uploads` reports its matching-file count. -/
theorem c8_summary_degrades_to_unknown_witness :
    sdbMixed.postgres = true ∧
    ("feedback", Entry.unknown)
      ∈ (get_user_data_summary sdbMixed saMixed "user42").data_summary ∧
    ("analytics", Entry.unknown)
      ∈ (get_user_data_summary sdbMixed saMixed "user42").data_summary ∧
    ("content", Entry.count 2)
      ∈ (get_user_data_summary sdbMixed saMixed "user42").data_summary ∧
    ("scripts", Entry.unknown)
      ∈ (get_user_data_summary sdbMixed saMixed "user42").file_counts ∧
    ("uploads", Entry.count 1)
      ∈ (get_user_data_summary sdbMixed saMixed "user42").file_counts := by
  have h := c8_summary_degrades_to_unknown sdbMixed saMixed "user42" rfl
  refine ⟨rfl, ?_, ?_, ?_, ?_, ?_⟩
  · exact h.2.1 ("feedback", "user_id") (by decide) "connection refused" (Or.inl rfl)
  · exact h.2.1 ("analytics", "user_id") (by decide) "relation missing"
      (Or.inr ⟨rfl, rfl⟩)
  · exact h.2.2.1 ("content", "uploader_id") (by decide) 2 rfl rfl
  · exact h.2.2.2.2.1 "scripts" (by decide) "timeout" rfl
  · have h6 := h.2.2.2.2.2 "uploads" (by decide) ["user42_a.mp4", "other.mp4"] rfl
    simpa using h6

/-- C3: out-of-range ratings are rejected with no row written — the
INSERT is never executed — but the HTTP status is 500, not the claimed
400: the intended `HTTPException(400)` is swallowed by the blanket
`except Exception` of the handler itself and re-raised as a 500.  Evaluated at the
failing inputs rating 0 and rating 6. -/
theorem c3_out_of_range_rating_gives_500_not_400 :
    feedback_minimal fdbOk "content-1" 0 ""
      = (.httpError 500 "400: Rating must be 1-5", none) ∧
    feedback_minimal fdbOk "content-1" 6 ""
      = (.httpError 500 "400: Rating must be 1-5", none) := by
  exact ⟨by decide, by decide⟩

/-- C10: for every accepted rating (1..5) the row handed to the INSERT
carries `reward = (rating − 3)/2`, which lies in `[−1, 1]`, and
`event_type = "like"` iff `rating ≥ 4`; in particular rating 5 ↦
(1, "like"), rating 1 ↦ (−1, "view"), rating 3 ↦ (0, "view"). -/
theorem c10_reward_normalization (fdb : FeedbackDB) (content_id comment : String)
    (rating : ℤ) (h1 : 1 ≤ rating) (h2 : rating ≤ 5) :
    ∀ row, (feedback_minimal fdb content_id rating comment).2 = some row →
      row.reward = ((rating : ℚ) - 3) / 2 ∧
      (-1 : ℚ) ≤ row.reward ∧ row.reward ≤ 1 ∧
      row.event_type = (if 4 ≤ rating then "like" else "view") ∧
      (rating = 5 → row.reward = 1 ∧ row.event_type = "like") ∧
      (rating = 1 → row.reward = -1 ∧ row.event_type = "view") ∧
      (rating = 3 → row.reward = 0 ∧ row.event_type = "view") := by
  intro row hrow
  have hg : 1 ≤ rating ∧ rating ≤ 5 := ⟨h1, h2⟩
  cases hc : fdb.connect with
  | error e => simp [feedback_minimal, hg, hc] at hrow
  | ok u =>
    have hrew : row.reward = reward_of rating ∧
        row.event_type = event_type_of rating := by
      cases hi : fdb.insertOutcome <;>
        · simp [feedback_minimal, hg, hc, hi] at hrow
          exact ⟨by rw [← hrow], by rw [← hrow]⟩
    obtain ⟨hr, he⟩ := hrew
    refine ⟨?_, ?_, ?_, ?_, ?_, ?_, ?_⟩
    · rw [hr]; rfl
    · rw [hr]; interval_cases rating <;> norm_num [reward_of]
    · rw [hr]; interval_cases rating <;> norm_num [reward_of]
    · rw [he]; rfl
    · intro h; subst h
      exact ⟨by rw [hr]; norm_num [reward_of], by rw [he]; rfl⟩
    · intro h; subst h
      exact ⟨by rw [hr]; norm_num [reward_of], by rw [he]; rfl⟩
    · intro h; subst h
      exact ⟨by rw [hr]; norm_num [reward_of], by rw [he]; rfl⟩

/-- C10 witness: rating 5 on a healthy database inserts a row with
reward 1 and event type `"like"`. -/
theorem c10_reward_normalization_witness :
    (1 : ℤ) ≤ 5 ∧ (5 : ℤ) ≤ 5 ∧
    (feedback_minimal fdbOk "c1" 5 "").2 = some rowFive ∧
    rowFive.reward = 1 ∧ rowFive.event_type = "like" := by
  have hrow : (feedback_minimal fdbOk "c1" 5 "").2 = some rowFive := by
    simp only [feedback_minimal, fdbOk, rowFive, event_type_of, reward_of]
    norm_num
  have h := c10_reward_normalization fdbOk "c1" "" 5 (by norm_num) (by norm_num)
    rowFive hrow
  exact ⟨by norm_num, by norm_num, hrow, h.2.2.2.2.1 rfl⟩

lemma VInv_init : VInv initVState := rfl

lemma VInv_add {s : VState} (h : VInv s) (n : String) (st : Bool) (d : String)
    (rt : ℚ) : VInv (add_validation_result s n st d rt) := by
  simp only [VInv, add_validation_result, List.all_append, List.all_cons,
    List.all_nil, Bool.and_true] at *
  rw [h]

lemma VInv_foldl {α : Type} (f : VState → α → VState)
    (hf : ∀ s a, VInv s → VInv (f s a)) :
    ∀ (l : List α) (s : VState), VInv s → VInv (l.foldl f s) := by
  intro l
  induction l with
  | nil => intro s h; exact h
  | cons a as ih => intro s h; exact ih (f s a) (hf s a h)

lemma VInv_probeGet (env : DeployEnv) (ep ds : String) {s : VState}
    (h : VInv s) : VInv (probeGet env s ep ds) := by
  unfold probeGet
  split
  · split <;> exact VInv_add h _ _ _ _
  · exact VInv_add h _ _ _ _

lemma VInv_core (env : DeployEnv) {s : VState} (h : VInv s) :
    VInv (validate_core_endpoints env s) :=
  VInv_foldl _ (fun _s ed h => VInv_probeGet env ed.1 ed.2 h) core_endpoints s h

lemma VInv_auth (env : DeployEnv) {s : VState} (h : VInv s) :
    VInv (validate_authentication_flow env s) := by
  unfold validate_authentication_flow
  split
  · exact VInv_add h _ _ _ _
  · dsimp only
    split
    · split
      · split
        · exact VInv_add (VInv_add h _ _ _ _) _ _ _ _
        · split <;> exact VInv_add (VInv_add h _ _ _ _) _ _ _ _
      · exact VInv_add h _ _ _ _
    · exact VInv_add h _ _ _ _

lemma VInv_upload (env : DeployEnv) {s : VState} (h : VInv s) :
    VInv (validate_upload_system env s) := by
  unfold validate_upload_system
  split
  · exact VInv_add h _ _ _ _
  · dsimp only
    split
    · split <;> exact VInv_add (VInv_add h _ _ _ _) _ _ _ _
    · split <;> split <;> exact VInv_add (VInv_add h _ _ _ _) _ _ _ _

lemma VInv_probeMonitoring (env : DeployEnv) (ep ds : String) {s : VState}
    (h : VInv s) : VInv (probeMonitoring env s ep ds) := by
  unfold probeMonitoring
  split
  · split <;> exact VInv_add h _ _ _ _
  · exact VInv_add h _ _ _ _

lemma VInv_monitoring (env : DeployEnv) {s : VState} (h : VInv s) :
    VInv (validate_monitoring_system env s) :=
  VInv_foldl _ (fun _s ed h => VInv_probeMonitoring env ed.1 ed.2 h)
    monitoring_endpoints s h

lemma VInv_gdpr (env : DeployEnv) {s : VState} (h : VInv s) :
    VInv (validate_gdpr_compliance env s) := by
  unfold validate_gdpr_compliance
  split
  · split <;> exact VInv_add h _ _ _ _
  · exact VInv_add h _ _ _ _

lemma VInv_probePerformance (env : DeployEnv) (ep ds : String) (mt : ℚ)
    {s : VState} (h : VInv s) : VInv (probePerformance env s ep ds mt) := by
  unfold probePerformance
  split
  · split
    · exact VInv_add h _ _ _ _
    · split <;> exact VInv_add h _ _ _ _
  · exact VInv_add h _ _ _ _

lemma VInv_performance (env : DeployEnv) {s : VState} (h : VInv s) :
    VInv (validate_performance_benchmarks env s) :=
  VInv_foldl _ (fun _s pt h => VInv_probePerformance env pt.1 pt.2.1 pt.2.2 h)
    performance_tests s h

lemma VInv_wait (env : DeployEnv) {s : VState} (h : VInv s) :
    VInv (wait_for_deployment env s).2 := by
  unfold wait_for_deployment
  split <;> exact VInv_add h _ _ _ _

lemma VInv_run (env : DeployEnv) : VInv (run_full_validation env).2 := by
  unfold run_full_validation
  dsimp only
  split
  · exact VInv_performance env (VInv_gdpr env (VInv_monitoring env
      (VInv_upload env (VInv_auth env (VInv_core env (VInv_wait env VInv_init))))))
  · exact VInv_wait env VInv_init

lemma run_fst_eq_healthy (env : DeployEnv) :
    (run_full_validation env).1 = (run_full_validation env).2.deployment_healthy := by
  unfold run_full_validation
  dsimp only
  split
  · rfl
  · rename_i hf
    unfold wait_for_deployment at hf ⊢
    by_cases h2 : env.healthUpWithinTimeout
    · rw [if_pos h2] at hf; simp at hf
    · rw [if_neg h2]
      simp [add_validation_result, initVState]

/-- C9 counterexample: probes do NOT always run when earlier probes fail.
When the readiness wait fails, `run_full_validation` records only the
failing `Deployment Ready` probe and returns — the `Health Check` probe,
which is in the defined sequence (it records a result when the wait
succeeds, as the `envUp` run shows), is never executed and appends no
record, refuting the no-short-circuiting claim at this concrete input. -/
theorem c9_counterexample :
    ((run_full_validation envDown).2.validation_results.map (fun r => r.test_name)
       = ["Deployment Ready"]) ∧
    ("Health Check" ∈ (run_full_validation envUp).2.validation_results.map
       (fun r => r.test_name)) ∧
    ("Health Check" ∉ (run_full_validation envDown).2.validation_results.map
       (fun r => r.test_name)) ∧
    ((run_full_validation envDown).2.deployment_healthy = false) := by
  refine ⟨?_, ?_, ?_, ?_⟩ <;> decide

/-- C9 (amended): each executed probe appends exactly one record carrying
pass/fail status, a detail string and the latency, and — for both
checkers — the overall healthy flag equals the logical AND of the pass
flags of all recorded probes, with the return value of the run equal to that
flag.  However the probe sequences short-circuit (see the
counterexample): a failed readiness wait aborts the validator run, and
nested probes (`Demo Login Flow`, `Content Listing`) are skipped when
their guarding probe fails. -/
theorem c9_healthy_equals_and_of_records (env : DeployEnv) :
    ((run_full_validation env).2.deployment_healthy
       = (run_full_validation env).2.validation_results.all fun r => r.passed) ∧
    ((run_full_validation env).1
       = (run_full_validation env).2.deployment_healthy) ∧
    (∀ s n st d rt, (add_validation_result s n st d rt).validation_results
       = s.validation_results ++
         [{ test_name := n, status := if st then "PASS" else "FAIL",
            passed := st, details := d,
            response_time_ms := roundTo2 (rt * 1000) }]) ∧
    (∀ l, (runChecks l).overall_status = (runChecks l).checks.all fun r => r.passed) := by
  refine ⟨VInv_run env, run_fst_eq_healthy env, fun s n st d rt => rfl, ?_⟩
  have hstep : ∀ (l : List (String × String × Bool × String))
      (s : CState), s.overall_status = (s.checks.all fun r => r.passed) →
      (l.foldl (fun s x => add_check_result s x.1 x.2.1 x.2.2.1 x.2.2.2) s).overall_status
        = ((l.foldl (fun s x => add_check_result s x.1 x.2.1 x.2.2.1 x.2.2.2) s).checks.all
            fun r => r.passed) := by
    intro l
    induction l with
    | nil => intro s h; exact h
    | cons x xs ih =>
      intro s h
      refine ih _ ?_
      simp only [add_check_result, List.all_append, List.all_cons, List.all_nil,
        Bool.and_true]
      rw [h]
  intro l
  exact hstep l initCState rfl

end AiAgent
